import Mathlib

/-!
Verification of the agents_development repository.

Shallow embedding of the repository's own logic:
  * `src/agents/agent_with_mcp/task_server.py` (task store, create/complete/delete/get,
    JSON persistence),
  * `src/utils/retry.py` (`retry_with_backoff`),
  * `src/examples/tool_agent.py` (`TOOL_FUNCTIONS`, `execute_tool`),
  * `src/agents/agent_with_mcp/weather_server.py` (`get_weather`),
  * `src/agents/agent_with_mcp/mcp_client.py` (tool aggregation in `create_graph`),
  * `src/tools/calculator.py` (`CalculatorTool.calculate`).

External library calls (HTTP requests, `eval`, `time.sleep`, `random.uniform`,
wall-clock timestamps, MCP sessions) are modelled as explicit parameters or
oracles; Python dicts become insertion-ordered association lists; machine floats
for backoff delays are idealised as rationals.
-/

namespace AgentsDev

/-! ## Ordered string-keyed dictionaries (Python `dict` model) -/

/-- Lookup in an insertion-ordered association list (`d[k]` / `k in d`). -/
def dget? {α : Type} : List (String × α) → String → Option α
  | [], _ => none
  | (k, v) :: rest, key => if key = k then some v else dget? rest key

/-- Assignment `d[k] = v`: updates in place when the key is present, otherwise
appends at the end, as Python dicts do. -/
def dset {α : Type} : List (String × α) → String → α → List (String × α)
  | [], key, val => [(key, val)]
  | (k, v) :: rest, key, val =>
    if key = k then (key, val) :: rest else (k, v) :: dset rest key val

/-- Deletion `del d[k]`. -/
def ddel {α : Type} : List (String × α) → String → List (String × α)
  | [], _ => []
  | (k, v) :: rest, key => if key = k then ddel rest key else (k, v) :: ddel rest key

theorem dget?_dset {α : Type} (d : List (String × α)) (k : String) (v : α) :
    ∀ k', dget? (dset d k v) k' = if k' = k then some v else dget? d k' := by
  intro k'
  induction d with
  | nil =>
    by_cases h : k' = k <;> simp [dset, dget?, h]
  | cons p rest ih =>
    obtain ⟨pk, pv⟩ := p
    by_cases hk : k = pk
    · subst hk
      by_cases h : k' = k <;> simp [dset, dget?, h]
    · by_cases h : k' = pk
      · subst h
        have : ¬ k' = k := fun hc => hk hc.symm
        simp [dset, hk, dget?, this]
      · simp [dset, hk, dget?, h, ih]

theorem dget?_ddel {α : Type} (d : List (String × α)) (k : String) :
    ∀ k', k' ≠ k → dget? (ddel d k) k' = dget? d k' := by
  intro k' hne
  induction d with
  | nil => simp [ddel]
  | cons p rest ih =>
    obtain ⟨pk, pv⟩ := p
    by_cases hk : k = pk
    · subst hk
      simp [ddel, dget?, hne, ih]
    · by_cases h : k' = pk <;> simp [ddel, hk, dget?, h, ih]

/-- Python whitespace, CPython's `Py_UNICODE_ISSPACE`: the set used both by
`str.strip()` and by `\s` in a str-pattern regex. It holds the ASCII
whitespace `\t \n \v \f \r`, the information separators U+001C to U+001F,
space, and the Unicode whitespace NEL U+0085, NBSP U+00A0, Ogham space mark
U+1680, the U+2000 to U+200A spaces, line separator U+2028, paragraph
separator U+2029, narrow NBSP U+202F, medium mathematical space U+205F and
ideographic space U+3000. -/
def pyWhitespace (c : Char) : Bool :=
  (0x09 ≤ c.toNat && c.toNat ≤ 0x0d) || (0x1c ≤ c.toNat && c.toNat ≤ 0x1f)
    || c.toNat = 0x20 || c.toNat = 0x85 || c.toNat = 0xa0 || c.toNat = 0x1680
    || (0x2000 ≤ c.toNat && c.toNat ≤ 0x200a) || c.toNat = 0x2028
    || c.toNat = 0x2029 || c.toNat = 0x202f || c.toNat = 0x205f
    || c.toNat = 0x3000

/-- Python `s.strip()`: remove leading and trailing whitespace. -/
def pyStrip (s : String) : String :=
  String.mk (((s.data.dropWhile pyWhitespace).reverse.dropWhile pyWhitespace).reverse)

/-! ## Task server (`task_server.py`) -/

/-- A task dict as built by `create_task`: keys `id`, `title`, `description`,
`status`, `created_at`, plus `completed_at` once completed. -/
structure Task where
  id : String
  title : String
  description : String
  status : String
  created_at : String
  completed_at : Option String
deriving DecidableEq, Repr

/-- The module-level mutable state of the task server: the `_tasks` dict and
the `_next_task_id` counter. -/
structure TaskStore where
  tasks : List (String × Task)
  next_task_id : Nat
deriving DecidableEq, Repr

/-- The state at module initialisation: `_tasks = {}`, `_next_task_id = 1`. -/
def initialStore : TaskStore := { tasks := [], next_task_id := 1 }

/-- Return values of the task tools; each constructor is one of the dict
shapes returned by the Python functions, `err m` standing for `{"error": m}`. -/
inductive TRes where
  | createOk (task : Task) (message : String)
  | completeOk (task : Task) (message : String)
  | deleteOk (message : String)
  | getOk (task : Task)
  | err (msg : String)
deriving DecidableEq, Repr

/-- Python `description.strip() if description else ""`. -/
def pyStripOpt : Option String → String
  | some d => if d = "" then "" else pyStrip d
  | none => ""

/-- The `create_task` tool. `now` stands for `datetime.now().isoformat()`. -/
def create_task (now : String) (title : String) (description : Option String)
    (st : TaskStore) : TRes × TaskStore :=
  if title = "" ∨ pyStrip title = "" then
    (TRes.err "Task title cannot be empty.", st)
  else
    let task_id := Nat.repr st.next_task_id
    let task : Task :=
      { id := task_id
        title := pyStrip title
        description := pyStripOpt description
        status := "pending"
        created_at := now
        completed_at := none }
    (TRes.createOk task
        ("Task \x27" ++ title ++ "\x27 created successfully with ID " ++ task_id ++ "."),
      { tasks := dset st.tasks task_id task, next_task_id := st.next_task_id + 1 })

/-- The `complete_task` tool. -/
def complete_task (now : String) (task_id : String) (st : TaskStore) :
    TRes × TaskStore :=
  match dget? st.tasks task_id with
  | none => (TRes.err ("Task with ID \x27" ++ task_id ++ "\x27 not found."), st)
  | some task =>
    if task.status = "completed" then
      (TRes.err ("Task \x27" ++ task.title ++ "\x27 is already completed."), st)
    else
      let task2 := { task with status := "completed", completed_at := some now }
      (TRes.completeOk task2 ("Task \x27" ++ task2.title ++ "\x27 marked as completed."),
        { st with tasks := dset st.tasks task_id task2 })

/-- The `delete_task` tool. -/
def delete_task (task_id : String) (st : TaskStore) : TRes × TaskStore :=
  match dget? st.tasks task_id with
  | none => (TRes.err ("Task with ID \x27" ++ task_id ++ "\x27 not found."), st)
  | some task =>
    (TRes.deleteOk ("Task \x27" ++ task.title ++ "\x27 (ID: " ++ task_id ++ ") deleted successfully."),
      { st with tasks := ddel st.tasks task_id })

/-- The `get_task` tool. -/
def get_task (task_id : String) (st : TaskStore) : TRes × TaskStore :=
  match dget? st.tasks task_id with
  | none => (TRes.err ("Task with ID \x27" ++ task_id ++ "\x27 not found."), st)
  | some task => (TRes.getOk task, st)

/-! ## Decimal representation: `Nat.repr` is injective

Task IDs are `str(_next_task_id)`; uniqueness of the string IDs rests on
injectivity of the decimal representation, proved here against core's
`Nat.toDigits`. -/

/-- Numeric value of a decimal digit character. -/
def digitVal (c : Char) : Nat := c.toNat - 48

theorem digitVal_digitChar : ∀ d : Nat, d < 10 → digitVal (Nat.digitChar d) = d := by
  decide

theorem toDigitsCore_fuel (f1 : Nat) : ∀ (f2 n : Nat) (acc : List Char),
    n < f1 → n < f2 →
    Nat.toDigitsCore 10 f1 n acc = Nat.toDigitsCore 10 f2 n acc := by
  induction f1 with
  | zero => intro f2 n acc h1 _; omega
  | succ f ih =>
    intro f2 n acc h1 h2
    cases f2 with
    | zero => omega
    | succ g =>
      simp only [Nat.toDigitsCore]
      by_cases hd : n / 10 = 0
      · simp [hd]
      · simp only [hd, if_false]
        have hn : 0 < n := by
          by_contra hc
          push_neg at hc
          interval_cases n
          simp at hd
        have hlt : n / 10 < n := Nat.div_lt_self hn (by norm_num)
        exact ih g (n / 10) _ (by omega) (by omega)

theorem toDigitsCore_acc (f : Nat) : ∀ (n : Nat) (acc : List Char), n < f →
    Nat.toDigitsCore 10 f n acc = Nat.toDigitsCore 10 f n [] ++ acc := by
  induction f with
  | zero => intro n acc h; omega
  | succ f ih =>
    intro n acc h
    simp only [Nat.toDigitsCore]
    by_cases hd : n / 10 = 0
    · simp [hd]
    · simp only [hd, if_false]
      have hn : 0 < n := by
        by_contra hc
        push_neg at hc
        interval_cases n
        simp at hd
      have hlt : n / 10 < f := by
        have := Nat.div_lt_self hn (show 1 < 10 by norm_num)
        omega
      rw [ih (n / 10) _ hlt, ih (n / 10) [Nat.digitChar (n % 10)] hlt]
      simp

/-- Decode a most-significant-first list of decimal digit characters. -/
def decToNat (l : List Char) : Nat := l.foldl (fun a c => a * 10 + digitVal c) 0

theorem decToNat_append_singleton (xs : List Char) (c : Char) :
    decToNat (xs ++ [c]) = decToNat xs * 10 + digitVal c := by
  simp [decToNat, List.foldl_append]

theorem decToNat_toDigits : ∀ n : Nat, decToNat (Nat.toDigits 10 n) = n := by
  intro n
  induction n using Nat.strong_induction_on with
  | _ n ih =>
    show decToNat (Nat.toDigitsCore 10 (n + 1) n []) = n
    by_cases hd : n / 10 = 0
    · have hn : n < 10 := by omega
      have hmod : n % 10 = n := Nat.mod_eq_of_lt hn
      simp only [Nat.toDigitsCore, hd, if_pos]
      simp [decToNat, hmod, digitVal_digitChar n hn]
    · have hn : 0 < n := by
        by_contra hc
        push_neg at hc
        interval_cases n
        simp at hd
      have hlt : n / 10 < n := Nat.div_lt_self hn (by norm_num)
      simp only [Nat.toDigitsCore, hd, if_false]
      rw [toDigitsCore_acc n (n / 10) [Nat.digitChar (n % 10)] (by omega)]
      rw [toDigitsCore_fuel n (n / 10 + 1) (n / 10) [] (by omega) (Nat.lt_succ_self _)]
      rw [decToNat_append_singleton]
      have hrec : decToNat (Nat.toDigitsCore 10 (n / 10 + 1) (n / 10) []) = n / 10 :=
        ih (n / 10) hlt
      rw [hrec, digitVal_digitChar (n % 10) (Nat.mod_lt n (by norm_num))]
      omega

theorem Nat_repr_injective : Function.Injective Nat.repr := by
  intro m n h
  have hd : Nat.toDigits 10 m = Nat.toDigits 10 n := by
    have := congrArg String.data h
    simpa [Nat.repr, List.asString] using this
  have := congrArg decToNat hd
  rwa [decToNat_toDigits, decToNat_toDigits] at this

/-! ## Task-server traces -/

/-- One store-mutating MCP tool call (the operations named in the uniqueness
claim). `now` stands for the wall-clock timestamp of the call. -/
inductive TaskOp where
  | create (now title : String) (description : Option String)
  | complete (now task_id : String)
  | delete (task_id : String)
deriving DecidableEq, Repr

/-- Apply one tool call to the store. -/
def applyOp : TaskOp → TaskStore → TRes × TaskStore
  | TaskOp.create now title desc, st => create_task now title desc st
  | TaskOp.complete now tid, st => complete_task now tid st
  | TaskOp.delete tid, st => delete_task tid st

/-- Run a sequence of tool calls. -/
def runOps : List TaskOp → TaskStore → TaskStore
  | [], st => st
  | op :: ops, st => runOps ops (applyOp op st).2

/-- String IDs assigned by the successful `create_task` calls along a run. -/
def assignedIds : List TaskOp → TaskStore → List String
  | [], _ => []
  | op :: ops, st =>
    (match (applyOp op st).1 with
     | TRes.createOk t _ => [t.id]
     | _ => []) ++ assignedIds ops (applyOp op st).2

/-- Counter values consumed by the successful `create_task` calls along a run. -/
def assignedCounters : List TaskOp → TaskStore → List Nat
  | [], _ => []
  | op :: ops, st =>
    (match (applyOp op st).1 with
     | TRes.createOk _ _ => [st.next_task_id]
     | _ => []) ++ assignedCounters ops (applyOp op st).2

theorem create_task_success (now title : String) (desc : Option String) (st : TaskStore)
    (h : ¬ (title = "" ∨ pyStrip title = "")) :
    create_task now title desc st =
      (TRes.createOk
          { id := Nat.repr st.next_task_id
            title := pyStrip title
            description := pyStripOpt desc
            status := "pending"
            created_at := now
            completed_at := none }
          ("Task \x27" ++ title ++ "\x27 created successfully with ID "
            ++ Nat.repr st.next_task_id ++ "."),
        { tasks := dset st.tasks (Nat.repr st.next_task_id)
              { id := Nat.repr st.next_task_id
                title := pyStrip title
                description := pyStripOpt desc
                status := "pending"
                created_at := now
                completed_at := none }
          next_task_id := st.next_task_id + 1 }) := by
  simp [create_task, h]

theorem applyOp_next_dichotomy (op : TaskOp) (st : TaskStore) :
    ((∃ t m, (applyOp op st).1 = TRes.createOk t m)
        ∧ (applyOp op st).2.next_task_id = st.next_task_id + 1)
    ∨ ((∀ t m, (applyOp op st).1 ≠ TRes.createOk t m)
        ∧ (applyOp op st).2.next_task_id = st.next_task_id) := by
  cases op with
  | create now title desc =>
    by_cases h : title = "" ∨ pyStrip title = ""
    · right
      simp [applyOp, create_task, h]
    · left
      rw [applyOp, create_task_success now title desc st h]
      refine ⟨⟨_, _, rfl⟩, rfl⟩
  | complete now tid =>
    right
    simp only [applyOp, complete_task]
    cases hd : dget? st.tasks tid with
    | none => simp
    | some task =>
      by_cases hs : task.status = "completed" <;> simp [hs]
  | delete tid =>
    right
    simp only [applyOp, delete_task]
    cases hd : dget? st.tasks tid with
    | none => simp
    | some task => simp

theorem applyOp_createOk_id (op : TaskOp) (st : TaskStore) (t : Task) (m : String)
    (h : (applyOp op st).1 = TRes.createOk t m) : t.id = Nat.repr st.next_task_id := by
  cases op with
  | create now title desc =>
    by_cases hc : title = "" ∨ pyStrip title = ""
    · simp [applyOp, create_task, hc] at h
    · rw [applyOp, create_task_success now title desc st hc] at h
      simp only at h
      obtain ⟨h1, _⟩ := TRes.createOk.inj h
      rw [← h1]
  | complete now tid =>
    simp only [applyOp, complete_task] at h
    cases hd : dget? st.tasks tid with
    | none => rw [hd] at h; simp at h
    | some task =>
      rw [hd] at h
      by_cases hs : task.status = "completed" <;> simp [hs] at h
  | delete tid =>
    simp only [applyOp, delete_task] at h
    cases hd : dget? st.tasks tid with
    | none => rw [hd] at h; simp at h
    | some task => rw [hd] at h; simp at h

theorem assignedIds_eq_map (ops : List TaskOp) : ∀ st : TaskStore,
    assignedIds ops st = (assignedCounters ops st).map Nat.repr := by
  induction ops with
  | nil => intro st; simp [assignedIds, assignedCounters]
  | cons op ops ih =>
    intro st
    simp only [assignedIds, assignedCounters, List.map_append]
    congr 1
    · cases hr : (applyOp op st).1 with
      | createOk t m =>
        have := applyOp_createOk_id op st t m hr
        simp [this]
      | completeOk t m => simp
      | deleteOk m => simp
      | getOk t => simp
      | err m => simp
    · exact ih _

theorem assignedCounters_bound (ops : List TaskOp) : ∀ st : TaskStore,
    (∀ x ∈ assignedCounters ops st, st.next_task_id ≤ x)
    ∧ List.Pairwise (· < ·) (assignedCounters ops st) := by
  induction ops with
  | nil => intro st; simp [assignedCounters]
  | cons op ops ih =>
    intro st
    rcases applyOp_next_dichotomy op st with ⟨⟨t, m, hok⟩, hnext⟩ | ⟨hnot, hnext⟩
    · obtain ⟨hbound, hpair⟩ := ih (applyOp op st).2
      rw [hnext] at hbound
      have hlist : assignedCounters (op :: ops) st
          = st.next_task_id :: assignedCounters ops (applyOp op st).2 := by
        simp only [assignedCounters, hok]
        rfl
      rw [hlist]
      constructor
      · intro x hx
        rcases List.mem_cons.mp hx with rfl | hx
        · exact le_refl _
        · have := hbound x hx; omega
      · refine List.Pairwise.cons ?_ hpair
        intro x hx
        have := hbound x hx
        omega
    · obtain ⟨hbound, hpair⟩ := ih (applyOp op st).2
      rw [hnext] at hbound
      have hlist : assignedCounters (op :: ops) st
          = assignedCounters ops (applyOp op st).2 := by
        cases hr : (applyOp op st).1 with
        | createOk t m => exact absurd hr (hnot t m)
        | completeOk t m => simp [assignedCounters, hr]
        | deleteOk m => simp [assignedCounters, hr]
        | getOk t => simp [assignedCounters, hr]
        | err m => simp [assignedCounters, hr]
      rw [hlist]
      exact ⟨hbound, hpair⟩

/-- Claim C2: over every sequence of `create_task` / `complete_task` /
`delete_task` calls from the initial store, (1) each successful `create_task`
assigns the decimal string of the current `_next_task_id` counter as the new
task's ID and bumps the counter by exactly one, (2) no operation ever decreases
the counter, and (3) the IDs assigned over the lifetime of the store are
pairwise distinct, so no ID ever denotes two different tasks — in particular an
ID freed by `delete_task` is never reassigned. -/
theorem task_ids_unique_and_incrementing :
    (∀ (now title : String) (desc : Option String) (st : TaskStore),
        ¬ (title = "" ∨ pyStrip title = "") →
        (∃ task msg, (create_task now title desc st).1 = TRes.createOk task msg
            ∧ task.id = Nat.repr st.next_task_id)
          ∧ (create_task now title desc st).2.next_task_id = st.next_task_id + 1)
    ∧ (∀ (op : TaskOp) (st : TaskStore),
        st.next_task_id ≤ (applyOp op st).2.next_task_id)
    ∧ (∀ ops : List TaskOp, (assignedIds ops initialStore).Nodup) := by
  refine ⟨?_, ?_, ?_⟩
  · intro now title desc st h
    rw [create_task_success now title desc st h]
    exact ⟨⟨_, _, rfl, rfl⟩, rfl⟩
  · intro op st
    rcases applyOp_next_dichotomy op st with ⟨_, hnext⟩ | ⟨_, hnext⟩ <;> omega
  · intro ops
    rw [assignedIds_eq_map]
    obtain ⟨_, hpair⟩ := assignedCounters_bound ops initialStore
    have hnd : (assignedCounters ops initialStore).Nodup :=
      hpair.imp fun h => Nat.ne_of_lt h
    exact hnd.map Nat_repr_injective

/-- Concrete instantiation of the C2 theorem: create, delete the created task,
create again; the two assigned IDs are distinct and the counter moved 1 → 3. -/
theorem task_ids_unique_and_incrementing_witness :
    ((∃ task msg, (create_task "2024-05-01T10:00:00" "Buy milk" none initialStore).1
          = TRes.createOk task msg ∧ task.id = Nat.repr initialStore.next_task_id)
        ∧ (create_task "2024-05-01T10:00:00" "Buy milk" none initialStore).2.next_task_id
            = initialStore.next_task_id + 1)
    ∧ initialStore.next_task_id ≤ (applyOp (TaskOp.delete "1") initialStore).2.next_task_id
    ∧ (assignedIds
        [TaskOp.create "t0" "Buy milk" none, TaskOp.delete "1",
         TaskOp.create "t1" "Walk dog" none] initialStore).Nodup :=
  ⟨task_ids_unique_and_incrementing.1 "2024-05-01T10:00:00" "Buy milk" none initialStore
      (by decide),
   task_ids_unique_and_incrementing.2.1 (TaskOp.delete "1") initialStore,
   task_ids_unique_and_incrementing.2.2
     [TaskOp.create "t0" "Buy milk" none, TaskOp.delete "1",
      TaskOp.create "t1" "Walk dog" none]⟩

/-- Claim C8: every task-server operation that returns an error dictionary
leaves the store unchanged — `create_task` on an empty or whitespace-only
title, `complete_task` / `delete_task` / `get_task` on an ID not in the store,
and `complete_task` on an already-completed task all return an error value and
modify neither `_tasks` nor `_next_task_id`. -/
theorem error_paths_leave_store_unchanged :
    (∀ (now title : String) (desc : Option String) (st : TaskStore),
        (title = "" ∨ pyStrip title = "") →
        ∃ m, create_task now title desc st = (TRes.err m, st))
    ∧ (∀ (now tid : String) (st : TaskStore), dget? st.tasks tid = none →
        ∃ m, complete_task now tid st = (TRes.err m, st))
    ∧ (∀ (tid : String) (st : TaskStore), dget? st.tasks tid = none →
        ∃ m, delete_task tid st = (TRes.err m, st))
    ∧ (∀ (tid : String) (st : TaskStore), dget? st.tasks tid = none →
        ∃ m, get_task tid st = (TRes.err m, st))
    ∧ (∀ (now tid : String) (st : TaskStore) (task : Task),
        dget? st.tasks tid = some task → task.status = "completed" →
        ∃ m, complete_task now tid st = (TRes.err m, st)) := by
  refine ⟨?_, ?_, ?_, ?_, ?_⟩
  · intro now title desc st h
    rcases h with h | h <;>
      exact ⟨"Task title cannot be empty.", by simp [create_task, h]⟩
  · intro now tid st h
    exact ⟨"Task with ID \x27" ++ tid ++ "\x27 not found.", by simp [complete_task, h]⟩
  · intro tid st h
    exact ⟨"Task with ID \x27" ++ tid ++ "\x27 not found.", by simp [delete_task, h]⟩
  · intro tid st h
    exact ⟨"Task with ID \x27" ++ tid ++ "\x27 not found.", by simp [get_task, h]⟩
  · intro now tid st task hsome hstat
    exact ⟨"Task \x27" ++ task.title ++ "\x27 is already completed.",
      by simp [complete_task, hsome, hstat]⟩

/-- An already-completed example task, for the C8 witness. -/
def exDoneTask : Task :=
  { id := "1", title := "Buy milk", description := "", status := "completed",
    created_at := "2024-05-01T10:00:00", completed_at := some "2024-05-01T11:00:00" }

/-- A store holding only `exDoneTask`, for the C8 witness. -/
def exDoneStore : TaskStore := { tasks := [("1", exDoneTask)], next_task_id := 2 }

/-- Concrete instantiation of the C8 theorem on all five error paths. -/
theorem error_paths_leave_store_unchanged_witness :
    (∃ m, create_task "t" "   " none initialStore = (TRes.err m, initialStore))
    ∧ (∃ m, complete_task "t" "7" initialStore = (TRes.err m, initialStore))
    ∧ (∃ m, delete_task "7" initialStore = (TRes.err m, initialStore))
    ∧ (∃ m, get_task "7" initialStore = (TRes.err m, initialStore))
    ∧ (∃ m, complete_task "t" "1" exDoneStore = (TRes.err m, exDoneStore)) :=
  ⟨error_paths_leave_store_unchanged.1 "t" "   " none initialStore (by decide),
   error_paths_leave_store_unchanged.2.1 "t" "7" initialStore (by decide),
   error_paths_leave_store_unchanged.2.2.1 "7" initialStore (by decide),
   error_paths_leave_store_unchanged.2.2.2.1 "7" initialStore (by decide),
   error_paths_leave_store_unchanged.2.2.2.2 "t" "1" exDoneStore exDoneTask
     (by decide) (by decide)⟩

/-- Claim C9: on success, `complete_task` changes only the addressed task's
status field (from "pending" to "completed") and adds a `completed_at` field;
the task's id, title, description and created_at, every other task in the
store, and the `_next_task_id` counter are all unchanged. -/
theorem complete_task_frame :
    ∀ (now tid : String) (st : TaskStore) (task : Task),
      dget? st.tasks tid = some task → task.status = "pending" →
      ∃ msg task2,
        complete_task now tid st
            = (TRes.completeOk task2 msg, { st with tasks := dset st.tasks tid task2 })
          ∧ task2.status = "completed"
          ∧ task2.completed_at = some now
          ∧ task2.id = task.id
          ∧ task2.title = task.title
          ∧ task2.description = task.description
          ∧ task2.created_at = task.created_at
          ∧ dget? (complete_task now tid st).2.tasks tid = some task2
          ∧ (∀ k, k ≠ tid →
              dget? (complete_task now tid st).2.tasks k = dget? st.tasks k)
          ∧ (complete_task now tid st).2.next_task_id = st.next_task_id := by
  intro now tid st task hsome hstat
  have hne : ¬ task.status = "completed" := by
    rw [hstat]; decide
  have heq : complete_task now tid st
      = (TRes.completeOk { task with status := "completed", completed_at := some now }
            ("Task \x27" ++ task.title ++ "\x27 marked as completed."),
          { st with
              tasks := dset st.tasks tid
                  ({ task with status := "completed", completed_at := some now }) }) := by
    simp [complete_task, hsome, hne]
  refine ⟨_, { task with status := "completed", completed_at := some now },
    heq, rfl, rfl, rfl, rfl, rfl, rfl, ?_, ?_, ?_⟩
  · rw [heq]
    simp [dget?_dset]
  · intro k hk
    rw [heq]
    simp [dget?_dset, hk]
  · rw [heq]

/-- A pending example task, for the C9 witness. -/
def exPendingTask : Task :=
  { id := "1", title := "Buy milk", description := "", status := "pending",
    created_at := "2024-05-01T10:00:00", completed_at := none }

/-- A store holding `exPendingTask` and an unrelated second task, for the C9
witness. -/
def exPendingStore : TaskStore :=
  { tasks := [("1", exPendingTask),
              ("2", { id := "2", title := "Walk dog", description := "",
                      status := "pending", created_at := "2024-05-01T10:30:00",
                      completed_at := none })],
    next_task_id := 3 }

/-- Concrete instantiation of the C9 theorem. -/
theorem complete_task_frame_witness :
    ∃ msg task2,
      complete_task "2024-05-02T09:00:00" "1" exPendingStore
          = (TRes.completeOk task2 msg,
             { exPendingStore with
                tasks := dset exPendingStore.tasks "1" task2 })
        ∧ task2.status = "completed"
        ∧ task2.completed_at = some "2024-05-02T09:00:00"
        ∧ task2.id = exPendingTask.id
        ∧ task2.title = exPendingTask.title
        ∧ task2.description = exPendingTask.description
        ∧ task2.created_at = exPendingTask.created_at
        ∧ dget? (complete_task "2024-05-02T09:00:00" "1" exPendingStore).2.tasks "1"
            = some task2
        ∧ (∀ k, k ≠ "1" →
            dget? (complete_task "2024-05-02T09:00:00" "1" exPendingStore).2.tasks k
              = dget? exPendingStore.tasks k)
        ∧ (complete_task "2024-05-02T09:00:00" "1" exPendingStore).2.next_task_id
            = exPendingStore.next_task_id :=
  complete_task_frame "2024-05-02T09:00:00" "1" exPendingStore exPendingTask
    (by decide) (by decide)

/-! ## JSON persistence (`_save_tasks` / `_load_tasks`) -/

/-- The fragment of JSON the task file uses: strings, naturals, and ordered
objects. `json.dump` followed by `json.load` transports such a tree
unchanged, so the file content is modelled as the tree itself. -/
inductive Json where
  | str (s : String)
  | nat (n : Nat)
  | obj (fields : List (String × Json))

/-- The JSON object a task dict serialises to, fields in insertion order;
`completed_at` exists only for completed tasks. -/
def taskToJson (t : Task) : Json :=
  Json.obj ([("id", Json.str t.id), ("title", Json.str t.title),
             ("description", Json.str t.description), ("status", Json.str t.status),
             ("created_at", Json.str t.created_at)]
    ++ (match t.completed_at with
        | some c => [("completed_at", Json.str c)]
        | none => []))

/-- Read a task dict back out of its JSON object. -/
def taskOfJson : Json → Option Task
  | Json.obj fields =>
    match dget? fields "id", dget? fields "title", dget? fields "description",
        dget? fields "status", dget? fields "created_at" with
    | some (Json.str i), some (Json.str t), some (Json.str d),
        some (Json.str s), some (Json.str c) =>
      match dget? fields "completed_at" with
      | some (Json.str ca) =>
        some { id := i, title := t, description := d, status := s,
               created_at := c, completed_at := some ca }
      | none =>
        some { id := i, title := t, description := d, status := s,
               created_at := c, completed_at := none }
      | some _ => none
    | _, _, _, _, _ => none
  | _ => none

/-- Read the whole `tasks` object back into the `_tasks` dict. -/
def tasksOfJson : List (String × Json) → Option (List (String × Task))
  | [] => some []
  | (k, j) :: rest =>
    match taskOfJson j, tasksOfJson rest with
    | some t, some ts => some ((k, t) :: ts)
    | _, _ => none

/-- `_save_tasks`: the JSON written to `tasks.json`, the `_tasks` dict under
key `tasks` and the counter under key `next_id`. -/
def save_tasks (st : TaskStore) : Json :=
  Json.obj [("tasks", Json.obj (st.tasks.map (fun p => (p.1, taskToJson p.2)))),
            ("next_id", Json.nat st.next_task_id)]

/-- `_load_tasks`: `none` models a missing file (globals keep their initial
values); an unreadable tree takes the `except` branch and resets to `{}` / 1.
`data.get('tasks', {})` and `data.get('next_id', 1)` supply defaults. -/
def load_tasks : Option Json → TaskStore
  | none => { tasks := [], next_task_id := 1 }
  | some (Json.obj fields) =>
    let tjson := match dget? fields "tasks" with
      | some j => j
      | none => Json.obj []
    let nid : Option Nat := match dget? fields "next_id" with
      | some (Json.nat n) => some n
      | some _ => none
      | none => some 1
    match tjson, nid with
    | Json.obj tfields, some n =>
      (match tasksOfJson tfields with
       | some ts => { tasks := ts, next_task_id := n }
       | none => { tasks := [], next_task_id := 1 })
    | _, _ => { tasks := [], next_task_id := 1 }
  | some _ => { tasks := [], next_task_id := 1 }

theorem taskOfJson_taskToJson (t : Task) : taskOfJson (taskToJson t) = some t := by
  obtain ⟨i, ti, d, s, c, ca⟩ := t
  cases ca with
  | none => simp [taskToJson, taskOfJson, dget?]
  | some x => simp [taskToJson, taskOfJson, dget?]

theorem tasksOfJson_map (l : List (String × Task)) :
    tasksOfJson (l.map (fun p => (p.1, taskToJson p.2))) = some l := by
  induction l with
  | nil => simp [tasksOfJson]
  | cons p rest ih =>
    obtain ⟨k, t⟩ := p
    simp [tasksOfJson, taskOfJson_taskToJson, ih]

/-- Claim C6: persistence round-trip — for every store state, `_save_tasks`
followed by `_load_tasks` restores exactly the same `_tasks` dictionary and
the same `_next_task_id` counter, the tasks living under JSON key `tasks` and
the counter under `next_id`. -/
theorem save_load_round_trip :
    ∀ st : TaskStore,
      load_tasks (some (save_tasks st)) = st
      ∧ dget? (match save_tasks st with | Json.obj fs => fs | _ => []) "tasks"
          = some (Json.obj (st.tasks.map (fun p => (p.1, taskToJson p.2))))
      ∧ dget? (match save_tasks st with | Json.obj fs => fs | _ => []) "next_id"
          = some (Json.nat st.next_task_id) := by
  intro st
  refine ⟨?_, ?_, ?_⟩
  · simp [save_tasks, load_tasks, dget?, tasksOfJson_map]
  · simp [save_tasks, dget?]
  · simp [save_tasks, dget?]

/-! ## Retry with exponential backoff (`retry.py`) -/

/-- Python `s.lower()` (ASCII case folding suffices for the messages checked). -/
def pyLower (s : String) : String := String.mk (s.data.map Char.toLower)

/-- Whether `pat` occurs at the head of `text`. -/
def startsWithChars : List Char → List Char → Bool
  | [], _ => true
  | _ :: _, [] => false
  | p :: ps, t :: ts => (p == t) && startsWithChars ps ts

/-- Whether `pat` occurs anywhere in `text` (Python `pat in text`). -/
def hasSubChars (pat : List Char) : List Char → Bool
  | [] => startsWithChars pat []
  | c :: ts => startsWithChars pat (c :: ts) || hasSubChars pat ts

/-- Python `sub in s` on strings. -/
def strContains (s sub : String) : Bool := hasSubChars sub.data s.data

/-- The rate-limit test of `retry_with_backoff`: `"429" in str(e)` or
`"quota"`, `"rate limit"`, `"retry"` in `str(e).lower()`. -/
def is_rate_limit (e : String) : Bool :=
  strContains e "429" || strContains (pyLower e) "quota"
    || strContains (pyLower e) "rate limit" || strContains (pyLower e) "retry"

/-- The decorator's keyword parameters; delays are idealised as rationals. -/
structure RetryConfig where
  max_retries : Nat
  initial_delay : ℚ
  max_delay : ℚ
  exponential_base : ℚ
  jitter : Bool
deriving DecidableEq, Repr

/-- The decorator's default parameters. -/
def defaultRetryConfig : RetryConfig :=
  { max_retries := 3, initial_delay := 1, max_delay := 60,
    exponential_base := 2, jitter := true }

/-- Observable behaviour of one wrapped call: the value returned or exception
propagated, the sequence of `time.sleep` delays, and how many times the
wrapped function was invoked. -/
structure RetryResult (α : Type) where
  outcome : Except String α
  sleeps : List ℚ
  calls : Nat

/-- The `for attempt in range(max_retries + 1)` loop body of
`retry_with_backoff`. `f k` is the wrapped call's behaviour on attempt `k`
(`Except.error e` models raising an exception printing as `e`), and `jr k` the
`random.uniform(0, 1)` jitter drawn before the `k`-th retry. `remaining`
counts the attempts still allowed after this one, so `remaining =
max_retries - attempt` throughout and the source's `attempt < max_retries`
test is `0 < remaining`; recursion on `remaining` keeps the definition
structural. -/
def retryGo {α : Type} (cfg : RetryConfig) (jr : Nat → ℚ) (f : Nat → Except String α) :
    Nat → Nat → ℚ → RetryResult α
  | 0, attempt, _ =>
    -- last attempt (`attempt = max_retries`): a success returns, any exception
    -- is re-raised (both the early `raise` and the final `else: raise` branch)
    (match f attempt with
     | Except.ok v => { outcome := Except.ok v, sleeps := [], calls := 1 }
     | Except.error e => { outcome := Except.error e, sleeps := [], calls := 1 })
  | r + 1, attempt, delay =>
    -- `attempt < max_retries`: a non-rate-limit exception is re-raised at once,
    -- a rate-limit one sleeps `min(actual_delay, max_delay)` and retries with
    -- `delay *= exponential_base`
    (match f attempt with
     | Except.ok v => { outcome := Except.ok v, sleeps := [], calls := 1 }
     | Except.error e =>
       if is_rate_limit e = false then
         { outcome := Except.error e, sleeps := [], calls := 1 }
       else
         let actual_delay := if cfg.jitter then delay + jr attempt else delay
         let actual_delay := min actual_delay cfg.max_delay
         let rest := retryGo cfg jr f r (attempt + 1) (delay * cfg.exponential_base)
         { outcome := rest.outcome, sleeps := actual_delay :: rest.sleeps,
           calls := rest.calls + 1 })

/-- A call of a function wrapped by `retry_with_backoff(cfg)`. -/
def retry_with_backoff {α : Type} (cfg : RetryConfig) (jr : Nat → ℚ)
    (f : Nat → Except String α) : RetryResult α :=
  retryGo cfg jr f cfg.max_retries 0 cfg.initial_delay

deriving instance DecidableEq for Except

theorem retryGo_calls_pos {α : Type} (cfg : RetryConfig) (jr : Nat → ℚ)
    (f : Nat → Except String α) :
    ∀ (remaining attempt : Nat) (delay : ℚ),
      1 ≤ (retryGo cfg jr f remaining attempt delay).calls := by
  intro remaining attempt delay
  cases remaining with
  | zero =>
    cases hfa : f attempt <;> simp [retryGo, hfa]
  | succ r =>
    cases hfa : f attempt with
    | ok v => simp [retryGo, hfa]
    | error e =>
      by_cases hc : is_rate_limit e = false
      · simp [retryGo, hfa, hc]
      · simp only [retryGo, hfa, if_neg hc]
        omega

theorem retryGo_all_rate_limited {α : Type} (cfg : RetryConfig) (jr : Nat → ℚ)
    (f : Nat → Except String α) (e : Nat → String)
    (hjit : cfg.jitter = false)
    (hf : ∀ k, f k = Except.error (e k))
    (hrl : ∀ k, is_rate_limit (e k) = true) :
    ∀ (remaining attempt : Nat) (delay : ℚ),
      retryGo cfg jr f remaining attempt delay =
        { outcome := Except.error (e (attempt + remaining))
          sleeps := (List.range remaining).map
              (fun i => min (delay * cfg.exponential_base ^ i) cfg.max_delay)
          calls := remaining + 1 } := by
  intro remaining
  induction remaining with
  | zero =>
    intro attempt delay
    simp [retryGo, hf attempt, hrl attempt]
  | succ r ih =>
    intro attempt delay
    have hstep : retryGo cfg jr f (r + 1) attempt delay
        = { outcome := (retryGo cfg jr f r (attempt + 1)
                (delay * cfg.exponential_base)).outcome
            sleeps := min delay cfg.max_delay
              :: (retryGo cfg jr f r (attempt + 1)
                    (delay * cfg.exponential_base)).sleeps
            calls := (retryGo cfg jr f r (attempt + 1)
                (delay * cfg.exponential_base)).calls + 1 } := by
      simp [retryGo, hf attempt, hrl attempt, hjit]
    rw [hstep, ih (attempt + 1) (delay * cfg.exponential_base)]
    have h1 : attempt + 1 + r = attempt + (r + 1) := by omega
    simp only [RetryResult.mk.injEq, h1]
    refine ⟨trivial, ?_, trivial⟩
    rw [List.range_succ_eq_map, List.map_cons, List.map_map]
    congr 1
    · rw [pow_zero, mul_one]
    · congr 1
      funext i
      simp only [Function.comp_apply, pow_succ]
      congr 1
      ring

/-- Claim C3: with `jitter=False` and a rate-limit exception raised on every
attempt, the wrapper sleeps exactly `min(initial_delay * exponential_base^(k-1),
max_delay)` seconds before the k-th retry for every k from 1 to `max_retries`,
invokes the wrapped function exactly (hence at most) `max_retries + 1` times,
and re-raises the exception of the final failed attempt. -/
theorem retry_rate_limited_schedule {α : Type} (cfg : RetryConfig) (jr : Nat → ℚ)
    (f : Nat → Except String α) (e : Nat → String)
    (hjit : cfg.jitter = false)
    (hf : ∀ k, f k = Except.error (e k))
    (hrl : ∀ k, is_rate_limit (e k) = true) :
    (retry_with_backoff cfg jr f).sleeps
        = (List.range cfg.max_retries).map
            (fun i => min (cfg.initial_delay * cfg.exponential_base ^ i) cfg.max_delay)
    ∧ (∀ k, 1 ≤ k → k ≤ cfg.max_retries →
        (retry_with_backoff cfg jr f).sleeps.get? (k - 1)
          = some (min (cfg.initial_delay * cfg.exponential_base ^ (k - 1)) cfg.max_delay))
    ∧ (retry_with_backoff cfg jr f).calls = cfg.max_retries + 1
    ∧ (retry_with_backoff cfg jr f).outcome = Except.error (e cfg.max_retries) := by
  have h := retryGo_all_rate_limited cfg jr f e hjit hf hrl cfg.max_retries 0
    cfg.initial_delay
  rw [retry_with_backoff, h]
  simp only [Nat.zero_add]
  refine ⟨by trivial, ?_, by trivial, by trivial⟩
  intro k h1 h2
  rw [List.get?_eq_getElem?, List.getElem?_map,
    List.getElem?_range (by omega : k - 1 < cfg.max_retries)]
  rfl

/-- A retry configuration with jitter disabled, for the C3 witness. -/
def noJitterConfig : RetryConfig :=
  { max_retries := 2, initial_delay := 1, max_delay := 60,
    exponential_base := 2, jitter := false }

/-- A wrapped call that raises a 429 error on every attempt. -/
def always429 : Nat → Except String Unit := fun _ => Except.error "429 Too Many Requests"

/-- Concrete instantiation of the C3 theorem: two retries with sleeps
min(1*2^0, 60) and min(1*2^1, 60), three calls, final exception re-raised. -/
theorem retry_rate_limited_schedule_witness :
    (retry_with_backoff noJitterConfig (fun _ => 0) always429).sleeps
        = (List.range 2).map (fun i => min ((1:ℚ) * 2 ^ i) 60)
    ∧ (retry_with_backoff noJitterConfig (fun _ => 0) always429).calls = 2 + 1
    ∧ (retry_with_backoff noJitterConfig (fun _ => 0) always429).outcome
        = Except.error "429 Too Many Requests" := by
  have h := retry_rate_limited_schedule noJitterConfig (fun _ => 0) always429
    (fun _ => "429 Too Many Requests") rfl (fun k => rfl)
    (fun k => by show is_rate_limit "429 Too Many Requests" = true; decide)
  exact ⟨h.1, h.2.2.1, h.2.2.2⟩

/-- A wrapped call that raises a non-rate-limit HTTP error on every attempt. -/
def alwaysHttp500 : Nat → Except String Unit :=
  fun _ => Except.error "HTTP Error 500: Internal Server Error"

/-- Claim C1 counterexample: under the default configuration (max_retries = 3),
a call raising an exception caused by an HTTP error whose message marks no rate
limit is NOT retried — the wrapped function runs once, no backoff sleep
happens, and the exception propagates, although zero retries (< max_retries)
had been performed. -/
theorem retry_http_error_not_retried :
    (retry_with_backoff defaultRetryConfig (fun _ => 0) alwaysHttp500).outcome
        = Except.error "HTTP Error 500: Internal Server Error"
    ∧ (retry_with_backoff defaultRetryConfig (fun _ => 0) alwaysHttp500).sleeps = []
    ∧ (retry_with_backoff defaultRetryConfig (fun _ => 0) alwaysHttp500).calls = 1
    ∧ 0 < defaultRetryConfig.max_retries := by
  decide

/-- Claim C1 (amended): when a wrapped call raises an exception and retries
remain, the wrapper retries after a backoff delay only if the exception is a
rate-limit error (its message contains "429", "quota", "rate limit" or
"retry"); any other exception — HTTP errors included — is re-raised
immediately, with no sleep and no further invocation. -/
theorem retry_only_on_rate_limit {α : Type} (cfg : RetryConfig) (jr : Nat → ℚ)
    (f : Nat → Except String α) (e : String)
    (hf : f 0 = Except.error e) (hpos : 0 < cfg.max_retries) :
    (is_rate_limit e = true →
      retry_with_backoff cfg jr f =
        { outcome := (retryGo cfg jr f (cfg.max_retries - 1) 1
              (cfg.initial_delay * cfg.exponential_base)).outcome
          sleeps := min (if cfg.jitter then cfg.initial_delay + jr 0
                else cfg.initial_delay) cfg.max_delay
              :: (retryGo cfg jr f (cfg.max_retries - 1) 1
                    (cfg.initial_delay * cfg.exponential_base)).sleeps
          calls := (retryGo cfg jr f (cfg.max_retries - 1) 1
              (cfg.initial_delay * cfg.exponential_base)).calls + 1 }
      ∧ 2 ≤ (retry_with_backoff cfg jr f).calls)
    ∧ (is_rate_limit e = false →
      retry_with_backoff cfg jr f =
        { outcome := Except.error e, sleeps := [], calls := 1 }) := by
  obtain ⟨r, hr⟩ : ∃ r, cfg.max_retries = r + 1 := ⟨cfg.max_retries - 1, by omega⟩
  constructor
  · intro hrl
    have heq : retry_with_backoff cfg jr f =
        { outcome := (retryGo cfg jr f r 1
              (cfg.initial_delay * cfg.exponential_base)).outcome
          sleeps := min (if cfg.jitter then cfg.initial_delay + jr 0
                else cfg.initial_delay) cfg.max_delay
              :: (retryGo cfg jr f r 1
                    (cfg.initial_delay * cfg.exponential_base)).sleeps
          calls := (retryGo cfg jr f r 1
              (cfg.initial_delay * cfg.exponential_base)).calls + 1 } := by
      rw [retry_with_backoff, hr]
      simp [retryGo, hf, hrl]
    have hm : cfg.max_retries - 1 = r := by omega
    rw [hm]
    refine ⟨heq, ?_⟩
    rw [heq]
    have := retryGo_calls_pos cfg jr f r 1 (cfg.initial_delay * cfg.exponential_base)
    simp only
    omega
  · intro hrl
    rw [retry_with_backoff, hr]
    simp [retryGo, hf, hrl]

/-- Concrete instantiation of the amended C1 theorem on both branches: a 429
error is retried after a backoff sleep, an HTTP 500 error is propagated
immediately. -/
theorem retry_only_on_rate_limit_witness :
    (retry_with_backoff defaultRetryConfig (fun _ => 0) always429 =
        { outcome := (retryGo defaultRetryConfig (fun _ => 0) always429
              (defaultRetryConfig.max_retries - 1) 1
              (defaultRetryConfig.initial_delay * defaultRetryConfig.exponential_base)).outcome
          sleeps := min (if defaultRetryConfig.jitter then
                defaultRetryConfig.initial_delay + (fun _ => (0:ℚ)) 0
              else defaultRetryConfig.initial_delay) defaultRetryConfig.max_delay
              :: (retryGo defaultRetryConfig (fun _ => 0) always429
                    (defaultRetryConfig.max_retries - 1) 1
                    (defaultRetryConfig.initial_delay * defaultRetryConfig.exponential_base)).sleeps
          calls := (retryGo defaultRetryConfig (fun _ => 0) always429
              (defaultRetryConfig.max_retries - 1) 1
              (defaultRetryConfig.initial_delay * defaultRetryConfig.exponential_base)).calls + 1 }
      ∧ 2 ≤ (retry_with_backoff defaultRetryConfig (fun _ => 0) always429).calls)
    ∧ retry_with_backoff defaultRetryConfig (fun _ => 0) alwaysHttp500 =
        { outcome := Except.error "HTTP Error 500: Internal Server Error",
          sleeps := [], calls := 1 } :=
  ⟨(retry_only_on_rate_limit defaultRetryConfig (fun _ => 0) always429
      "429 Too Many Requests" rfl (by decide)).1 (by decide),
   (retry_only_on_rate_limit defaultRetryConfig (fun _ => 0) alwaysHttp500
      "HTTP Error 500: Internal Server Error" rfl (by decide)).2 (by decide)⟩

/-! ## Tool dispatch (`tool_agent.py`) -/

/-- A Python value passed as a tool argument (strings and ints suffice for the
defaults involved). -/
inductive PyV where
  | s (v : String)
  | i (n : Int)
deriving DecidableEq, Repr

/-- The six tool implementations; each is an oracle from the argument dict to
the returned string, standing for the Python functions `calculator`,
`web_search`, `get_weather`, `get_current_time`, `create_note`, `get_note`. -/
structure ToolImpls where
  calculator : List (String × PyV) → String
  web_search : List (String × PyV) → String
  get_weather : List (String × PyV) → String
  get_current_time : List (String × PyV) → String
  create_note : List (String × PyV) → String
  get_note : List (String × PyV) → String

/-- The `TOOL_FUNCTIONS` dict, in source order. -/
def TOOL_FUNCTIONS (impl : ToolImpls) :
    List (String × (List (String × PyV) → String)) :=
  [("calculator", impl.calculator),
   ("web_search", impl.web_search),
   ("get_weather", impl.get_weather),
   ("get_current_time", impl.get_current_time),
   ("create_note", impl.create_note),
   ("get_note", impl.get_note)]

/-- `execute_tool(function_name, args)`: dict dispatch with the two keyword
defaults, and the not-found error string otherwise. -/
def execute_tool (impl : ToolImpls) (function_name : String)
    (args : List (String × PyV)) : String :=
  match dget? (TOOL_FUNCTIONS impl) function_name with
  | some func =>
    let args :=
      if function_name = "web_search" ∧ dget? args "num_results" = none then
        dset args "num_results" (PyV.i 5)
      else if function_name = "get_current_time" ∧ dget? args "timezone" = none then
        dset args "timezone" (PyV.s "UTC")
      else args
    func args
  | none => "Error: Tool \x27" ++ function_name ++ "\x27 not found"

/-- Claim C4: `execute_tool` applies the function stored under `function_name`
in `TOOL_FUNCTIONS` to `args` for each of the six keys — inserting the
defaults `num_results = 5` for `web_search` and `timezone = "UTC"` for
`get_current_time` when absent — and returns the not-found error string,
without raising, for every name outside the dictionary. -/
theorem execute_tool_dispatch :
    ∀ (impl : ToolImpls) (args : List (String × PyV)),
      execute_tool impl "calculator" args = impl.calculator args
      ∧ execute_tool impl "web_search" args
          = impl.web_search (if dget? args "num_results" = none
              then dset args "num_results" (PyV.i 5) else args)
      ∧ execute_tool impl "get_weather" args = impl.get_weather args
      ∧ execute_tool impl "get_current_time" args
          = impl.get_current_time (if dget? args "timezone" = none
              then dset args "timezone" (PyV.s "UTC") else args)
      ∧ execute_tool impl "create_note" args = impl.create_note args
      ∧ execute_tool impl "get_note" args = impl.get_note args
      ∧ (∀ function_name,
          function_name ∉ ["calculator", "web_search", "get_weather",
            "get_current_time", "create_note", "get_note"] →
          execute_tool impl function_name args
            = "Error: Tool \x27" ++ function_name ++ "\x27 not found") := by
  intro impl args
  refine ⟨?_, ?_, ?_, ?_, ?_, ?_, ?_⟩
  · simp [execute_tool, TOOL_FUNCTIONS, dget?]
  · by_cases h : dget? args "num_results" = none <;>
      simp [execute_tool, TOOL_FUNCTIONS, dget?, h]
  · simp [execute_tool, TOOL_FUNCTIONS, dget?]
  · by_cases h : dget? args "timezone" = none <;>
      simp [execute_tool, TOOL_FUNCTIONS, dget?, h]
  · simp [execute_tool, TOOL_FUNCTIONS, dget?]
  · simp [execute_tool, TOOL_FUNCTIONS, dget?]
  · intro fn h
    simp only [List.mem_cons, List.not_mem_nil, or_false, not_or] at h
    obtain ⟨h1, h2, h3, h4, h5, h6⟩ := h
    simp [execute_tool, TOOL_FUNCTIONS, dget?, h1, h2, h3, h4, h5, h6]

/-- Constant tool implementations for the C4 witness; `web_search` reports the
`num_results` argument it received so that the inserted default is visible. -/
def exToolImpls : ToolImpls :=
  { calculator := fun _ => "8"
    web_search := fun args =>
      if dget? args "num_results" = some (PyV.i 5) then "five results" else "other"
    get_weather := fun _ => "sunny"
    get_current_time := fun args =>
      if dget? args "timezone" = some (PyV.s "UTC") then "12:00 UTC" else "other"
    create_note := fun _ => "created"
    get_note := fun _ => "note" }

/-- Concrete instantiation of the C4 theorem: dispatch to `calculator`, the
`web_search` default, and the not-found branch for an unknown tool name. -/
theorem execute_tool_dispatch_witness :
    execute_tool exToolImpls "calculator" [] = exToolImpls.calculator []
    ∧ execute_tool exToolImpls "web_search" []
        = exToolImpls.web_search (if dget? ([] : List (String × PyV)) "num_results" = none
            then dset [] "num_results" (PyV.i 5) else [])
    ∧ execute_tool exToolImpls "foo" [] = "Error: Tool \x27" ++ "foo" ++ "\x27 not found" := by
  have h := execute_tool_dispatch exToolImpls []
  exact ⟨h.1, h.2.1, h.2.2.2.2.2.2 "foo" (by decide)⟩

/-! ## Weather server (`weather_server.py`) -/

/-- The parts of the OpenWeatherMap response the code reads. A `none` models a
missing key (`KeyError`); `weather` is the list of condition objects, each
entry carrying its `description` when present (a missing `main` or `wind`
object is represented by its read fields being absent). -/
structure WeatherJson where
  name : Option String
  weather : Option (List (Option String))
  main_temp : Option String
  main_feels_like : Option String
  main_humidity : Option String
  wind_speed : Option String
deriving DecidableEq, Repr

/-- Outcome of `requests.get` + `raise_for_status()` + `.json()`:
a parsed body, an `HTTPError` with the response's status code, a
`RequestException` (network error), or any other exception. -/
inductive HttpResult where
  | success (data : WeatherJson)
  | httpError (status : Nat) (msg : String)
  | requestError (msg : String)
  | otherError (msg : String)
deriving DecidableEq, Repr

/-- The construction of the success dictionary: each field access in source
order, failing with the printed `KeyError` / `IndexError` of the first access
that misses. -/
def weatherFields (data : WeatherJson) : Except String (List (String × String)) :=
  match data.name with
  | none => Except.error "\x27name\x27"
  | some name =>
    match data.weather with
    | none => Except.error "\x27weather\x27"
    | some [] => Except.error "list index out of range"
    | some (none :: _) => Except.error "\x27description\x27"
    | some (some desc :: _) =>
      match data.main_temp with
      | none => Except.error "\x27temp\x27"
      | some temp =>
        match data.main_feels_like with
        | none => Except.error "\x27feels_like\x27"
        | some feels =>
          match data.main_humidity with
          | none => Except.error "\x27humidity\x27"
          | some humidity =>
            match data.wind_speed with
            | none => Except.error "\x27speed\x27"
            | some speed =>
              Except.ok [("location", name), ("weather", desc),
                ("temperature_celsius", temp ++ "°C"),
                ("feels_like_celsius", feels ++ "°C"),
                ("humidity", humidity ++ "%"),
                ("wind_speed_mps", speed ++ " m/s")]

/-- The `get_weather` tool: the returned dictionary for each outcome of the
HTTP call. -/
def get_weather (location : String) (resp : HttpResult) : List (String × String) :=
  match resp with
  | HttpResult.success data =>
    match weatherFields data with
    | Except.ok fields => fields
    | Except.error e => [("error", "Unexpected API response format: " ++ e)]
  | HttpResult.httpError status msg =>
    if status = 404 then
      [("error", "Could not find weather data for \x27" ++ location
          ++ "\x27. Please check the location name.")]
    else if status = 401 then
      [("error", "Authentication failed. The API key may be invalid or inactive.")]
    else
      [("error", "HTTP error " ++ Nat.repr status ++ ": " ++ msg)]
  | HttpResult.requestError msg => [("error", "Network error: " ++ msg)]
  | HttpResult.otherError msg => [("error", "Unexpected error: " ++ msg)]

theorem weatherFields_keys (data : WeatherJson) (fields : List (String × String))
    (h : weatherFields data = Except.ok fields) :
    fields.map Prod.fst
      = ["location", "weather", "temperature_celsius", "feels_like_celsius",
         "humidity", "wind_speed_mps"] := by
  unfold weatherFields at h
  repeat' split at h
  all_goals first | exact Except.noConfusion h | (cases h; rfl)

/-- Claim C5: `get_weather` always returns a dictionary and never propagates
an exception: on a successful response with the expected shape the dictionary
has exactly the keys location, weather, temperature_celsius,
feels_like_celsius, humidity, wind_speed_mps; HTTP 404 yields an error
dictionary mentioning the requested location; HTTP 401 an
authentication-failure error dictionary; and any network error or unexpected
response shape an error dictionary. -/
theorem get_weather_shape :
    ∀ (location : String) (resp : HttpResult),
      ((get_weather location resp).map Prod.fst
          = ["location", "weather", "temperature_celsius", "feels_like_celsius",
             "humidity", "wind_speed_mps"]
        ∨ (get_weather location resp).map Prod.fst = ["error"])
      ∧ (∀ data fields, resp = HttpResult.success data →
          weatherFields data = Except.ok fields →
          get_weather location resp = fields
            ∧ fields.map Prod.fst
                = ["location", "weather", "temperature_celsius",
                   "feels_like_celsius", "humidity", "wind_speed_mps"])
      ∧ (∀ data e, resp = HttpResult.success data →
          weatherFields data = Except.error e →
          get_weather location resp
            = [("error", "Unexpected API response format: " ++ e)])
      ∧ (∀ msg, resp = HttpResult.httpError 404 msg →
          ∃ pre post, get_weather location resp = [("error", pre ++ location ++ post)])
      ∧ (∀ msg, resp = HttpResult.httpError 401 msg →
          get_weather location resp
            = [("error", "Authentication failed. The API key may be invalid or inactive.")])
      ∧ (∀ msg, resp = HttpResult.requestError msg →
          get_weather location resp = [("error", "Network error: " ++ msg)]) := by
  intro location resp
  refine ⟨?_, ?_, ?_, ?_, ?_, ?_⟩
  · cases resp with
    | success data =>
      cases hw : weatherFields data with
      | ok fields =>
        left
        simp only [get_weather, hw]
        exact weatherFields_keys data fields hw
      | error e =>
        right
        simp [get_weather, hw]
    | httpError status msg =>
      right
      by_cases h4 : status = 404
      · simp [get_weather, h4]
      · by_cases h1 : status = 401 <;> simp [get_weather, h4, h1]
    | requestError msg => right; simp [get_weather]
    | otherError msg => right; simp [get_weather]
  · intro data fields hresp hw
    subst hresp
    exact ⟨by simp [get_weather, hw], weatherFields_keys data fields hw⟩
  · intro data e hresp hw
    subst hresp
    simp [get_weather, hw]
  · intro msg hresp
    subst hresp
    exact ⟨"Could not find weather data for \x27",
      "\x27. Please check the location name.", by simp [get_weather]⟩
  · intro msg hresp
    subst hresp
    simp [get_weather]
  · intro msg hresp
    subst hresp
    simp [get_weather]

/-- A complete example response body, for the C5 witness. -/
def exWeatherJson : WeatherJson :=
  { name := some "London", weather := some [some "light rain"],
    main_temp := some "11", main_feels_like := some "10",
    main_humidity := some "81", wind_speed := some "4.1" }

/-- Concrete instantiation of the C5 theorem: the success shape, the 404, 401
and network-error dictionaries. -/
theorem get_weather_shape_witness :
    (get_weather "London" (HttpResult.success exWeatherJson)
        = [("location", "London"), ("weather", "light rain"),
           ("temperature_celsius", "11" ++ "°C"), ("feels_like_celsius", "10" ++ "°C"),
           ("humidity", "81" ++ "%"), ("wind_speed_mps", "4.1" ++ " m/s")]
      ∧ ([("location", "London"), ("weather", "light rain"),
          ("temperature_celsius", "11" ++ "°C"), ("feels_like_celsius", "10" ++ "°C"),
          ("humidity", "81" ++ "%"),
          ("wind_speed_mps", "4.1" ++ " m/s")] : List (String × String)).map Prod.fst
          = ["location", "weather", "temperature_celsius", "feels_like_celsius",
             "humidity", "wind_speed_mps"])
    ∧ (∃ pre post, get_weather "Atlantis" (HttpResult.httpError 404 "404 Client Error")
        = [("error", pre ++ "Atlantis" ++ post)])
    ∧ get_weather "London" (HttpResult.httpError 401 "401 Client Error")
        = [("error", "Authentication failed. The API key may be invalid or inactive.")]
    ∧ get_weather "London" (HttpResult.requestError "timeout")
        = [("error", "Network error: " ++ "timeout")] :=
  ⟨(get_weather_shape "London" (HttpResult.success exWeatherJson)).2.1 exWeatherJson
      _ rfl rfl,
   (get_weather_shape "Atlantis" (HttpResult.httpError 404 "404 Client Error")).2.2.2.1
      "404 Client Error" rfl,
   (get_weather_shape "London" (HttpResult.httpError 401 "401 Client Error")).2.2.2.2.1
      "401 Client Error" rfl,
   (get_weather_shape "London" (HttpResult.requestError "timeout")).2.2.2.2.2
      "timeout" rfl⟩

/-! ## Multi-server tool aggregation (`mcp_client.py`, `create_graph`) -/

/-- A LangChain tool as produced by `load_mcp_tools`. -/
structure LCTool where
  name : String
  description : String
deriving DecidableEq, Repr

/-- The `for session, server_name in zip(sessions, server_names)` loop of
`create_graph`; a session is modelled by the tool list `load_mcp_tools`
returns for it, and `all_tools.extend(server_tools)` is the fold. -/
def create_graph_all_tools (sessions : List (List LCTool))
    (server_names : List String) : List LCTool :=
  (sessions.zip server_names).foldl (fun all_tools p => all_tools ++ p.1) []

theorem foldl_extend_eq_join {β : Type} (l : List (List LCTool × β)) :
    ∀ acc : List LCTool,
      l.foldl (fun all_tools p => all_tools ++ p.1) acc = acc ++ (l.map Prod.fst).flatten := by
  induction l with
  | nil => intro acc; simp
  | cons p rest ih =>
    intro acc
    simp [List.foldl_cons, ih, List.append_assoc]

theorem zip_eq_zip_take {γ β : Type} (ss : List γ) :
    ∀ ns : List β, ss.zip ns = (ss.take ns.length).zip ns := by
  induction ss with
  | nil => intro ns; simp
  | cons s ss ih =>
    intro ns
    cases ns with
    | nil => simp
    | cons n ns => simp [List.zip_cons_cons, ih ns]

/-- Claim C7: the aggregation loop produces `all_tools` equal to the in-order
concatenation of the per-server tool lists over the paired
(session, server_name) sequence; the total tool count is the sum of the
per-server counts; and a session with no paired server name (when the lists
differ in length) contributes no tools. -/
theorem create_graph_aggregation :
    ∀ (sessions : List (List LCTool)) (server_names : List String),
      create_graph_all_tools sessions server_names
          = ((sessions.zip server_names).map Prod.fst).flatten
      ∧ (create_graph_all_tools sessions server_names).length
          = (((sessions.zip server_names).map Prod.fst).map List.length).sum
      ∧ create_graph_all_tools sessions server_names
          = create_graph_all_tools (sessions.take server_names.length) server_names := by
  intro sessions server_names
  refine ⟨?_, ?_, ?_⟩
  · simp [create_graph_all_tools, foldl_extend_eq_join]
  · simp [create_graph_all_tools, foldl_extend_eq_join]
  · rw [create_graph_all_tools, create_graph_all_tools,
      zip_eq_zip_take sessions server_names]

/-! ## Calculator tool (`calculator.py`) -/

/-- A Python number as produced by `eval` on an arithmetic expression: an int,
or a float idealised as an exact rational. -/
inductive PyNum where
  | i (n : Int)
  | f (q : ℚ)
deriving DecidableEq, Repr

/-- Outcome of Python `eval` on the validated expression: a numeric value, a
`ZeroDivisionError`, or any other exception printing as `msg`. `eval` is an
imported builtin, so it enters the model as an oracle. -/
inductive EvalOutcome where
  | ok (v : PyNum)
  | zeroDivisionError
  | exn (msg : String)

/-- The result of `CalculatorTool.calculate`: a number or an error string. -/
inductive CalcResult where
  | num (v : PyNum)
  | str (s : String)
deriving DecidableEq, Repr

/-- One character of the validation class `[0-9+\-*/().\s]`. -/
def calcAllowedChar (c : Char) : Bool :=
  c.isDigit || c = '+' || c = '-' || c = '*' || c = '/' || c = '(' || c = ')'
    || c = '.' || pyWhitespace c

/-- `re.match(r'^[0-9+\-*/().\s]+$', expression)`: nonempty and all characters
allowed. -/
def calcPatternOk (s : String) : Bool :=
  decide (s ≠ "") && s.data.all calcAllowedChar

/-- The fixed invalid-character error string. -/
def calcInvalidMsg : String :=
  "Error: Invalid characters in expression. Only numbers and basic operators (+, -, *, /) are allowed."

/-- `CalculatorTool.calculate`, with `eval` abstracted by `pyEval`: strip, the
regex guard, evaluation, the whole-float-to-int conversion, and the two
`except` clauses. A float `q` is whole exactly when its denominator is 1, and
`int(q)` is then its numerator. -/
def calculate (pyEval : String → EvalOutcome) (expression : String) : CalcResult :=
  let expression := pyStrip expression
  if ¬ calcPatternOk expression then
    CalcResult.str calcInvalidMsg
  else
    match pyEval expression with
    | EvalOutcome.ok (PyNum.f q) =>
      if q.den = 1 then CalcResult.num (PyNum.i q.num) else CalcResult.num (PyNum.f q)
    | EvalOutcome.ok v => CalcResult.num v
    | EvalOutcome.zeroDivisionError => CalcResult.str "Error: Division by zero"
    | EvalOutcome.exn msg => CalcResult.str ("Error: " ++ msg)

/-- Claim C10: `calculate` is total (the bare `except` clauses let no exception
propagate — totality holds by construction of the model): an invalid character
in the stripped expression yields the fixed invalid-character error string;
division by zero yields "Error: Division by zero"; and a float result that is
a whole number is returned converted to an int. -/
theorem calculate_safety :
    ∀ (pyEval : String → EvalOutcome) (expression : String),
      ((∃ c ∈ (pyStrip expression).data, calcAllowedChar c = false) →
        calculate pyEval expression = CalcResult.str calcInvalidMsg)
      ∧ (calcPatternOk (pyStrip expression) = true →
          pyEval (pyStrip expression) = EvalOutcome.zeroDivisionError →
          calculate pyEval expression = CalcResult.str "Error: Division by zero")
      ∧ (∀ q : ℚ, calcPatternOk (pyStrip expression) = true →
          pyEval (pyStrip expression) = EvalOutcome.ok (PyNum.f q) → q.den = 1 →
          calculate pyEval expression = CalcResult.num (PyNum.i q.num)) := by
  intro pyEval expression
  refine ⟨?_, ?_, ?_⟩
  · intro hbad
    have hpat : calcPatternOk (pyStrip expression) = false := by
      obtain ⟨c, hc, hfalse⟩ := hbad
      unfold calcPatternOk
      simp only [Bool.and_eq_false_iff]
      right
      rw [List.all_eq_false]
      exact ⟨c, hc, by simp [hfalse]⟩
    simp [calculate, hpat]
  · intro hpat hz
    simp [calculate, hpat, hz]
  · intro q hpat hok hden
    simp [calculate, hpat, hok, hden]

/-- Concrete instantiation of the C10 theorem on all three branches: an
invalid character, a division by zero, and a whole float converted to int. -/
theorem calculate_safety_witness :
    calculate (fun _ => EvalOutcome.ok (PyNum.i 0)) "2+x" = CalcResult.str calcInvalidMsg
    ∧ calculate (fun _ => EvalOutcome.zeroDivisionError) "1/0"
        = CalcResult.str "Error: Division by zero"
    ∧ calculate (fun _ => EvalOutcome.ok (PyNum.f 3)) "6/2"
        = CalcResult.num (PyNum.i (3 : ℚ).num) :=
  ⟨(calculate_safety (fun _ => EvalOutcome.ok (PyNum.i 0)) "2+x").1
      ⟨'x', by decide, by decide⟩,
   (calculate_safety (fun _ => EvalOutcome.zeroDivisionError) "1/0").2.1 (by decide) rfl,
   (calculate_safety (fun _ => EvalOutcome.ok (PyNum.f 3)) "6/2").2.2 3 (by decide) rfl
      (by decide)⟩
